import Mathlib

/-!
Verification of `athina/evals/function/functions.py`: the string-matcher
operations and the structured comparison engine `json_eval`.

Python strings are modelled as `List Char`; `str.lower`/`str.upper` are
modelled as ASCII character-wise case mapping (`Char.toLower`/`Char.toUpper`),
which is what they perform on ASCII input.  External collaborators that are
not part of this file's source (the JSON-schema validator, the JSON-path
extractor, the embedding-similarity comparator, the chat-completion client,
and the HTTP HEAD probe) are injected capabilities, passed as parameters.
-/

/-- A Python string, modelled as a list of characters. -/
abbrev PyStr := List Char

/-- Python `str.lower()`, modelled as ASCII character-wise case mapping. -/
def pyLower (s : PyStr) : PyStr := s.map Char.toLower

/-- Python `str.upper()`, modelled as ASCII character-wise case mapping. -/
def pyUpper (s : PyStr) : PyStr := s.map Char.toUpper

/-- Python's default whitespace characters (as used by `str.strip()` and the
regex class `\s`), restricted to ASCII: space, tab, newline, carriage return,
vertical tab and form feed, written by code point. -/
def pyIsSpace (c : Char) : Bool :=
  c.toNat = 32 || c.toNat = 9 || c.toNat = 10 || c.toNat = 13 ||
    c.toNat = 11 || c.toNat = 12

/-- Python `str.strip()`: remove leading and trailing whitespace. -/
def pyStrip (s : PyStr) : PyStr :=
  ((s.dropWhile pyIsSpace).reverse.dropWhile pyIsSpace).reverse

/-- Python's substring test `k in t`. -/
def pySubstr (k t : PyStr) : Bool :=
  (List.range (t.length + 1)).any (fun i => k.isPrefixOf (t.drop i))

/-- Decimal rendering of a natural number, for reason strings built with
f-string interpolation of `len(...)`. -/
def natStr (n : Nat) : PyStr := (toString n).toList

/-- The verdict record `{"result": ..., "reason": ...}` returned by every
operation. -/
structure Verdict where
  result : Bool
  reason : PyStr
deriving DecidableEq

/-- The `keywords` argument of the keyword matchers: either a comma-separated
string or a list of strings. -/
inductive Keywords where
  | str (s : PyStr)
  | list (ks : List PyStr)

/-- Python `s.split(",")`. -/
def splitCommas (s : PyStr) : List PyStr := s.splitOn ','

/-- The string-to-list normalization at the top of `_preprocess_strings`. -/
def keywordsToList : Keywords → List PyStr
  | .str s => splitCommas s
  | .list ks => ks

/-- `_preprocess_strings`: normalize keywords to a list, strip each keyword,
and lowercase keywords and text when `case_sensitive` is false. -/
def preprocess_strings (keywords : Keywords) (text : PyStr) (case_sensitive : Bool) :
    List PyStr × PyStr :=
  let ks := (keywordsToList keywords).map pyStrip
  if !case_sensitive then (ks.map pyLower, pyLower text) else (ks, text)

/-- `contains_any`: pass when at least one keyword occurs in the text. -/
def contains_any (keywords : Keywords) (text : PyStr) (case_sensitive : Bool := false) :
    Verdict :=
  let p := preprocess_strings keywords text case_sensitive
  let found_keywords := p.1.filter (fun k => pySubstr k p.2)
  if found_keywords ≠ [] then
    ⟨true, "One or more keywords were found in output: ".toList ++
      List.intercalate ", ".toList found_keywords⟩
  else
    ⟨false, "No keywords found in output".toList⟩

/-- `contains_all`: pass when every keyword occurs in the text; the failure
reason enumerates the missing keywords. -/
def contains_all (keywords : Keywords) (text : PyStr) (case_sensitive : Bool := false) :
    Verdict :=
  let p := preprocess_strings keywords text case_sensitive
  let missing_keywords := p.1.filter (fun k => !pySubstr k p.2)
  if missing_keywords.length > 0 then
    ⟨false, "keywords not found in output: ".toList ++
      List.intercalate ", ".toList missing_keywords⟩
  else
    ⟨true, natStr p.1.length ++ "/".toList ++ natStr p.1.length ++
      " keywords found in output".toList⟩

/-- `contains`: pass when the single keyword occurs in the text. -/
def contains (keyword : PyStr) (text : PyStr) (case_sensitive : Bool := false) :
    Verdict :=
  let t := if case_sensitive = false then pyLower text else text
  let k := if case_sensitive = false then pyLower keyword else keyword
  if !pySubstr k t then
    ⟨false, "keyword not found in output: ".toList ++ k⟩
  else
    ⟨true, "keyword ".toList ++ k ++ " found in output".toList⟩

/-- `contains_none`: pass when no keyword occurs in the text. -/
def contains_none (keywords : Keywords) (text : PyStr) (case_sensitive : Bool := false) :
    Verdict :=
  let p := preprocess_strings keywords text case_sensitive
  let found_keywords := p.1.filter (fun k => pySubstr k p.2)
  if found_keywords ≠ [] then
    ⟨false, "One or more keywords were found in output: ".toList ++
      List.intercalate ", ".toList found_keywords⟩
  else
    ⟨true, "No keywords found in output".toList⟩

/-- `equals`: exact (optionally case-insensitive) string equality. -/
def equals (expected_text : PyStr) (text : PyStr) (case_sensitive : Bool := false) :
    Verdict :=
  let t := if case_sensitive = false then pyLower text else text
  let e := if case_sensitive = false then pyLower expected_text else expected_text
  if t = e then
    ⟨true, "✅ Text exactly matches expected text".toList⟩
  else
    ⟨false, "output does not exactly match expected text".toList⟩

/-- `starts_with`: the text starts with the given substring. -/
def starts_with (substring : PyStr) (text : PyStr) (case_sensitive : Bool := false) :
    Verdict :=
  let t := if case_sensitive = false then pyLower text else text
  let s := if case_sensitive = false then pyLower substring else substring
  if s.isPrefixOf t then
    ⟨true, "output starts with ".toList ++ s⟩
  else
    ⟨false, "output does not start with ".toList ++ s⟩

/-- `ends_with`: the text ends with the given substring. -/
def ends_with (substring : PyStr) (text : PyStr) (case_sensitive : Bool := false) :
    Verdict :=
  let t := if case_sensitive = false then pyLower text else text
  let s := if case_sensitive = false then pyLower substring else substring
  if s.isSuffixOf t then
    ⟨true, "output ends with ".toList ++ s⟩
  else
    ⟨false, "output does not end with ".toList ++ s⟩

/-- The optional scheme alternatives of the link pattern
`(?!.*@)(?:https?://)?(?:www\.)?\S+\.\S+`: the empty string, `http://`, or
`https://`. -/
def schemeOpts : List PyStr := [[], "http://".toList, "https://".toList]

/-- The optional `www.` alternatives of the link pattern. -/
def wwwOpts : List PyStr := [[], "www.".toList]

/-- The tail `\S+\.\S+` of the link pattern matches at the start of `r`:
some split with at least one non-whitespace character, then a literal dot,
then a non-whitespace character. -/
def coreMatch (r : PyStr) : Bool :=
  (List.range r.length).any (fun a =>
    decide (1 ≤ a) && (r.take a).all (fun c => !pyIsSpace c) &&
      (r.getD a ' ' = '.') && decide (a + 1 < r.length) &&
      !pyIsSpace (r.getD (a + 1) ' '))

/-- The link pattern matches at offset `i` of `s`: the negative lookahead
`(?!.*@)` requires no `@` between `i` and the next newline, and some choice of
the optional scheme and `www.` parts is followed by a `\S+\.\S+` core. -/
def linkMatchAt (s : PyStr) (i : Nat) : Bool :=
  let rest := s.drop i
  !((rest.takeWhile (fun c => c ≠ '\n')).any (fun c => c = '@')) &&
    schemeOpts.any (fun p => wwwOpts.any (fun w =>
      (p ++ w).isPrefixOf rest && coreMatch (rest.drop (p ++ w).length)))

/-- `re.search` with the link pattern: the first offset at which the pattern
matches, if any. -/
def linkSearchPos (s : PyStr) : Option Nat :=
  (List.range (s.length + 1)).find? (linkMatchAt s)

/-- The text of the first (greedy) match of the link pattern: from the first
matching offset to the end of the surrounding non-whitespace run. -/
def firstLink (s : PyStr) : Option PyStr :=
  (linkSearchPos s).map (fun i => (s.drop i).takeWhile (fun c => !pyIsSpace c))

/-- Whether `re.search` with the link pattern finds any match in `s`. -/
def linkFound (s : PyStr) : Bool := (linkSearchPos s).isSome

/-- `contains_link`: pass when the link pattern finds a URL-like token. -/
def contains_link (text : PyStr) : Verdict :=
  if linkFound text then
    ⟨true, "Link found in output".toList⟩
  else
    ⟨false, "No link found in output".toList⟩

/-- `_standardize_url`: prepend `http://` when no scheme is present. -/
def standardize_url (url : PyStr) : PyStr :=
  if "http://".toList.isPrefixOf url || "https://".toList.isPrefixOf url then url
  else "http://".toList ++ url

/-- `no_invalid_links`: probe the first URL-like token with an injected HTTP
HEAD capability (`head url = some status`, or `none` for a network exception);
a missing link or a 200 status passes, anything else fails. -/
def no_invalid_links (head : PyStr → Option Nat) (text : PyStr) : Verdict :=
  match firstLink text with
  | some matched_url =>
    if matched_url ≠ [] then
      match head (standardize_url matched_url) with
      | some status =>
        if status = 200 then
          ⟨true, "link ".toList ++ matched_url ++ " found in output and is valid".toList⟩
        else
          ⟨false, "link ".toList ++ matched_url ++ " found in output but is invalid".toList⟩
      | none =>
        ⟨false, "link ".toList ++ matched_url ++ " found in output but is invalid".toList⟩
    else
      ⟨true, "no invalid link found in output".toList⟩
  | none => ⟨true, "no invalid link found in output".toList⟩

/-- A parsed JSON/Python value as handled by `json_eval`: the result of
`json.loads` (or an already-structured input). -/
inductive Json where
  | null
  | bool (b : Bool)
  | num (q : ℚ)
  | str (s : PyStr)
  | arr (xs : List Json)
  | obj (kvs : List (PyStr × Json))

/-- Python dict key lookup `d[k]` on an association list, `none` when the key
is absent (a `KeyError` in Python). -/
def lookupJ (kvs : List (PyStr × Json)) (k : PyStr) : Option Json :=
  (kvs.find? (fun kv => kv.1 = k)).map (fun kv => kv.2)

/-- The numeric reading of a Python value: booleans are numbers in Python
(`True == 1`), used to model Python `==`. -/
def pyNum? : Json → Option ℚ
  | .bool b => some (if b then 1 else 0)
  | .num q => some q
  | _ => none

/-- Python `==` on parsed JSON values: numbers and booleans compare
numerically, lists compare pointwise, dicts compare as mappings
(key-order-insensitive, assuming the unique keys produced by `json.loads`). -/
def pyEq : Json → Json → Bool
  | a, b =>
    match pyNum? a, pyNum? b with
    | some x, some y => decide (x = y)
    | _, _ =>
      match a, b with
      | .null, .null => true
      | .str s, .str t => decide (s = t)
      | .arr xs, .arr ys =>
        decide (xs.length = ys.length) &&
          (xs.zip ys).attach.all (fun ⟨(x, y), h⟩ => pyEq x y)
      | .obj xs, .obj ys =>
        decide (xs.length = ys.length) &&
          xs.attach.all (fun ⟨(k, v), h⟩ =>
            match lookupJ ys k with
            | some w => pyEq v w
            | none => false)
      | _, _ => false
  termination_by a _ => sizeOf a
  decreasing_by
  · have h1 := List.sizeOf_lt_of_mem (List.of_mem_zip h).1
    simp only [Json.arr.sizeOf_spec]
    omega
  · have h1 := List.sizeOf_lt_of_mem h
    simp only [Prod.mk.sizeOf_spec] at h1
    simp only [Json.obj.sizeOf_spec]
    omega

/-- Python truthiness of a parsed JSON value (`bool(x)`): `None`, `False`,
zero, and empty strings/lists/dicts are falsy. -/
def pyTruthy : Json → Bool
  | .null => false
  | .bool b => b
  | .num q => decide (q ≠ 0)
  | .str s => decide (s ≠ [])
  | .arr xs => !xs.isEmpty
  | .obj kvs => !kvs.isEmpty

/-- Decimal-style rendering of a rational, standing in for Python's rendering
of a JSON number inside `str(...)`. -/
def ratStr (q : ℚ) : PyStr :=
  if q.den = 1 then (toString q.num).toList
  else (toString q.num).toList ++ '/' :: (toString q.den).toList

/-- Python `str(value)` on a parsed JSON value, as used to coerce extracted
values to text before similarity comparison and prompt interpolation.
Container rendering approximates Python's `repr`-based form; no theorem below
depends on the exact rendering. -/
def pyStr : Json → PyStr
  | .null => "None".toList
  | .bool true => "True".toList
  | .bool false => "False".toList
  | .num q => ratStr q
  | .str s => s
  | .arr xs =>
    '[' :: List.intercalate ", ".toList (xs.attach.map (fun ⟨x, h⟩ => pyStr x)) ++ [']']
  | .obj kvs =>
    Char.ofNat 123 ::
      List.intercalate ", ".toList
        (kvs.attach.map (fun ⟨(k, v), h⟩ => k ++ ": ".toList ++ pyStr v)) ++
      [Char.ofNat 125]
  termination_by j => sizeOf j
  decreasing_by
  · have h1 := List.sizeOf_lt_of_mem h
    simp only [Json.arr.sizeOf_spec]
    omega
  · have h1 := List.sizeOf_lt_of_mem h
    simp only [Prod.mk.sizeOf_spec] at h1
    simp only [Json.obj.sizeOf_spec]
    omega

/-- One entry of the validation plan (`ValidationSpec`): the fields read from
the `validation` dict by `_apply_validation` and the strategies. -/
structure Validation where
  validating_function : PyStr
  json_path : PyStr
  pass_threshold : Option ℚ := none
  model : Option PyStr := none
  open_ai_api_key : Option PyStr := none

/-- The injected external capabilities consumed by `json_eval`:
`validate_json` (the JSON-schema validator from `athina.helpers.json`),
`extract_json_path` (the JSON-path extractor from `athina.helpers.json`),
`cosine_compare` (`CosineSimilarity().compare` from
`athina.evals.grounded.similarity`), and `json_completion`
(`OpenAiService().json_completion`, applied to the model name, the system
message, the user message and the temperature, returning the parsed JSON
judgment as a dict). -/
structure Caps where
  validate_json : Json → Json → Bool
  extract_json_path : Json → PyStr → Json
  cosine_compare : PyStr → PyStr → ℚ
  json_completion : PyStr → PyStr → PyStr → ℚ → List (PyStr × Json)

/-- The shared credential store `OpenAiApiKey`: the stored key, or `none`
when no key has been set. -/
abbrev KeyState := Option PyStr

/-- The fatal errors raised (not returned as verdicts) by the engine. -/
inductive EvalError where
  | noOpenAiApiKey
deriving DecidableEq

/-- Python `x or y` on an optional string: `y` when `x` is `None` or empty
(falsy), `x` otherwise. -/
def pyOrStr : Option PyStr → Option PyStr → Option PyStr
  | some s, y => if s.isEmpty then y else some s
  | none, y => y

/-- The credential resolution chain of `_validate_llm_similarity`:
`validation.get("open_ai_api_key") or OpenAiApiKey.get_key() or
os.environ.get("OPENAI_API_KEY")`. -/
def resolveKey (validation : Validation) (st : KeyState) (env : Option PyStr) :
    Option PyStr :=
  pyOrStr validation.open_ai_api_key (pyOrStr st env)

/-- Python `not key` on an optional string: true for `None` and for the empty
string. -/
def notKey : Option PyStr → Bool
  | none => true
  | some s => s.isEmpty

/-- The fixed judge instruction of `_validate_llm_similarity`. -/
def systemMessage : PyStr :=
  ("\n    You are an expert at evaluating whether two given strings are similar or not. Consider semantic similarity also while evaluating.\n    You MUST return a JSON object with the following fields: \n    - result: Result must be either \x27Pass\x27 or \x27Fail\x27.\n    - explanation: An explanation of why the result is Pass or Fail.\n    - score: Any matching score you have used to come to the result.\n    ").toList

/-- The user turn of `_validate_llm_similarity`, interpolating both extracted
values. -/
def userMessage (actual_value expected_value : Json) : PyStr :=
  "\n    Following are two strings:\n    1. String 1: ".toList ++
    pyStr actual_value ++ ".\n    2. String 2: ".toList ++
    pyStr expected_value ++ ".\n    ".toList

/-- `_validate_equals`: pass iff the two extracted values are equal. -/
def validate_equals (actual_value expected_value : Json) (json_path : PyStr) :
    Bool :=
  if !pyEq actual_value expected_value then false else true

/-- `_validate_cosine_similarity`: pass iff the injected similarity score of
the text representations reaches the threshold (default 0.8). -/
def validate_cosine_similarity (caps : Caps) (actual_value expected_value : Json)
    (validation : Validation) : Bool :=
  let threshold := validation.pass_threshold.getD (0.8 : ℚ)
  let cosine_similarity :=
    caps.cosine_compare (pyStr actual_value) (pyStr expected_value)
  if cosine_similarity < threshold then false else true

/-- `_validate_llm_similarity`: resolve a credential (raising
`NoOpenAiApiKeyException` when none is available), store it via
`OpenAiApiKey.set_key`, request a JSON judgment from the chat-completion
capability at temperature 0, and fail when the judgment lacks a `result` or
`explanation` field or when `result == "Fail"`. -/
def validate_llm_similarity (caps : Caps) (env : Option PyStr)
    (actual_value expected_value : Json) (validation : Validation)
    (st : KeyState) : Except EvalError Bool × KeyState :=
  let open_ai_api_key := resolveKey validation st env
  if notKey open_ai_api_key then (Except.error .noOpenAiApiKey, st)
  else
    let response := caps.json_completion (validation.model.getD "gpt-3.5-turbo".toList)
      systemMessage (userMessage actual_value expected_value) 0
    match lookupJ response "result".toList with
    | none => (Except.ok false, open_ai_api_key)
    | some result =>
      match lookupJ response "explanation".toList with
      | none => (Except.ok false, open_ai_api_key)
      | some _ =>
        if pyEq result (.str "Fail".toList) then (Except.ok false, open_ai_api_key)
        else (Except.ok true, open_ai_api_key)

/-- `_apply_validation`: extract both values at the entry's path and dispatch
on the strategy name; an unknown name is logged and evaluates to `False`. -/
def apply_validation (caps : Caps) (env : Option PyStr)
    (actual_json expected_json : Json) (validation : Validation)
    (st : KeyState) : Except EvalError Bool × KeyState :=
  let json_path := validation.json_path
  let actual_value := caps.extract_json_path actual_json json_path
  let expected_value := caps.extract_json_path expected_json json_path
  if validation.validating_function = "Equals".toList then
    (Except.ok (validate_equals actual_value expected_value json_path), st)
  else if validation.validating_function = "Cosine Similarity".toList then
    (Except.ok (validate_cosine_similarity caps actual_value expected_value validation), st)
  else if validation.validating_function = "LLM Similarity".toList then
    validate_llm_similarity caps env actual_value expected_value validation st
  else
    (Except.ok false, st)

/-- The validation loop of `json_eval`: apply each entry in order, stopping at
the first failure or raised error. -/
def run_validations (caps : Caps) (env : Option PyStr)
    (actual_json expected_json : Json) :
    List Validation → KeyState → Except EvalError Bool × KeyState
  | [], st => (Except.ok true, st)
  | v :: vs, st =>
    match apply_validation caps env actual_json expected_json v st with
    | (Except.error e, st') => (Except.error e, st')
    | (Except.ok false, st') => (Except.ok false, st')
    | (Except.ok true, st') => run_validations caps env actual_json expected_json vs st'

/-- `json_eval`: check both documents against the schema and run the
validation plan.  The inputs are the parsed documents (`_load_json` parses
raw text; a parse failure is a raised error outside this model) and the
parsed schema (`_get_schema` parses raw schema text after stripping newlines
and tabs); `schema = none` models an absent `"schema"` kwarg.  Raised errors
propagate to the caller (the `except` clause logs and re-raises). -/
def json_eval (caps : Caps) (env : Option PyStr)
    (actual_json expected_json : Json) (schema : Option Json)
    (validations : List Validation) (st : KeyState) :
    Except EvalError Verdict × KeyState :=
  let truthy := match schema with
    | none => false
    | some s => pyTruthy s
  if !truthy then
    (Except.ok ⟨false, "Schema not provided".toList⟩, st)
  else
    match schema with
    | none => (Except.ok ⟨false, "Schema not provided".toList⟩, st)
    | some s =>
      if !(caps.validate_json actual_json s && caps.validate_json expected_json s) then
        (Except.ok ⟨false, "Schema validation failed".toList⟩, st)
      else
        match run_validations caps env actual_json expected_json validations st with
        | (Except.error e, st') => (Except.error e, st')
        | (Except.ok false, st') => (Except.ok ⟨false, "Validation failed".toList⟩, st')
        | (Except.ok true, st') => (Except.ok ⟨true, "Json eval passed".toList⟩, st')

/-- A concrete capability instance for closed evaluations: the schema
validator accepts everything, path extraction returns the whole document, the
similarity score is the constant 0.8, and the judge returns a well-formed
passing judgment. -/
def demoCaps : Caps where
  validate_json := fun _ _ => true
  extract_json_path := fun j _ => j
  cosine_compare := fun _ _ => (0.8 : ℚ)
  json_completion := fun _ _ _ _ =>
    [("result".toList, .str "Pass".toList),
     ("explanation".toList, .str "similar".toList)]

/-- A capability instance whose judge answers with an empty dict: the
judgment is missing every required field. -/
def emptyJudgeCaps : Caps :=
  { demoCaps with json_completion := fun _ _ _ _ => [] }

/-- A capability instance whose judge answers with a malformed judgment: a
`result` value outside Pass/Fail and no `score` field. -/
def malformedJudgeCaps : Caps :=
  { demoCaps with
    json_completion := fun _ _ _ _ =>
      [("result".toList, .str "Maybe".toList),
       ("explanation".toList, .str "unsure".toList)] }

/-- A concrete non-empty schema object for closed evaluations. -/
def demoSchema : Json := .obj [("type".toList, .str "object".toList)]

/-- A concrete document for closed evaluations. -/
def demoDoc : Json := .obj [("a".toList, .num 1)]

/-- A concrete LLM Similarity validation entry with an inline API key. -/
def llmTestValidation : Validation :=
  { validating_function := "LLM Similarity".toList, json_path := "$.a".toList,
    open_ai_api_key := some "sk-test".toList }

/-- A second concrete LLM Similarity validation entry, for closed witnesses. -/
def llmWitnessValidation : Validation :=
  { validating_function := "LLM Similarity".toList, json_path := "$.b".toList,
    open_ai_api_key := some "sk-w".toList }

/-- Round trip: rebuilding a character from its code point is the identity. -/
theorem char_toNat_ofNat (n : Nat) (h : n.isValidChar) : (Char.ofNat n).toNat = n := by
  unfold Char.ofNat
  rw [dif_pos h]
  rfl

/-- Round trip: a character is determined by its code point. -/
theorem char_ofNat_toNat (c : Char) : Char.ofNat c.toNat = c := by
  have h : c.toNat.isValidChar := c.valid
  unfold Char.ofNat
  rw [dif_pos h]
  apply Char.ext
  apply UInt32.ext
  simp [Char.ofNatAux, Char.toNat]
  rfl

/-- Lowercasing after uppercasing agrees with lowercasing directly. -/
theorem toLower_toUpper (c : Char) : c.toUpper.toLower = c.toLower := by
  unfold Char.toUpper Char.toLower
  by_cases h : c.toNat ≥ 97 ∧ c.toNat ≤ 122
  · rw [if_pos h]
    have ht : (Char.ofNat (c.toNat - 32)).toNat = c.toNat - 32 :=
      char_toNat_ofNat _ (Or.inl (by omega))
    rw [if_pos (by rw [ht]; omega), if_neg (by omega), ht]
    have h32 : c.toNat - 32 + 32 = c.toNat := by omega
    rw [h32, char_ofNat_toNat]
  · rw [if_neg h]

/-- Uppercasing preserves whitespace-ness. -/
theorem pyIsSpace_toUpper (c : Char) : pyIsSpace c.toUpper = pyIsSpace c := by
  unfold Char.toUpper pyIsSpace
  by_cases h : c.toNat ≥ 97 ∧ c.toNat ≤ 122
  · rw [if_pos h]
    have ht : (Char.ofNat (c.toNat - 32)).toNat = c.toNat - 32 :=
      char_toNat_ofNat _ (Or.inl (by omega))
    rw [Bool.eq_iff_iff]
    simp only [Bool.or_eq_true, decide_eq_true_eq, ht]
    omega
  · rw [if_neg h]

/-- Lowercasing an uppercased string agrees with lowercasing directly. -/
theorem pyLower_pyUpper (s : PyStr) : pyLower (pyUpper s) = pyLower s := by
  unfold pyLower pyUpper
  rw [List.map_map]
  have h : Char.toLower ∘ Char.toUpper = Char.toLower := funext toLower_toUpper
  rw [h]

/-- Stripping commutes with uppercasing. -/
theorem pyStrip_pyUpper (s : PyStr) : pyStrip (pyUpper s) = pyUpper (pyStrip s) := by
  unfold pyStrip pyUpper
  have h : pyIsSpace ∘ Char.toUpper = pyIsSpace := funext pyIsSpace_toUpper
  rw [List.dropWhile_map, h, ← List.map_reverse, List.dropWhile_map, h, ← List.map_reverse]

/-- Preprocessing in case-insensitive mode is invariant under uppercasing
all inputs. -/
theorem preprocess_strings_upper (ks : List PyStr) (t : PyStr) :
    preprocess_strings (.list (ks.map pyUpper)) (pyUpper t) false =
      preprocess_strings (.list ks) t false := by
  unfold preprocess_strings keywordsToList
  simp only [Bool.not_false, if_true, pyLower_pyUpper, List.map_map]
  have h : pyLower ∘ pyStrip ∘ pyUpper = pyLower ∘ pyStrip := by
    funext k
    simp only [Function.comp_apply]
    rw [pyStrip_pyUpper, pyLower_pyUpper]
  rw [h]

/-- C6: for every keyword list and text, each case-insensitive matcher invoked
with `case_sensitive = false` gives the same verdict on the uppercased inputs
as on the originals: `matcher(X.upper(), text.upper()) = matcher(X, text)`,
for `contains`, `contains_any`, `contains_all`, `contains_none`, `equals`,
`starts_with` and `ends_with`. -/
theorem matchers_upper_invariant (ks : List PyStr) (k t : PyStr) :
    contains (pyUpper k) (pyUpper t) false = contains k t false ∧
    contains_any (.list (ks.map pyUpper)) (pyUpper t) false =
      contains_any (.list ks) t false ∧
    contains_all (.list (ks.map pyUpper)) (pyUpper t) false =
      contains_all (.list ks) t false ∧
    contains_none (.list (ks.map pyUpper)) (pyUpper t) false =
      contains_none (.list ks) t false ∧
    equals (pyUpper k) (pyUpper t) false = equals k t false ∧
    starts_with (pyUpper k) (pyUpper t) false = starts_with k t false ∧
    ends_with (pyUpper k) (pyUpper t) false = ends_with k t false := by
  refine ⟨?_, ?_, ?_, ?_, ?_, ?_, ?_⟩
  · simp [contains, pyLower_pyUpper]
  · unfold contains_any
    rw [preprocess_strings_upper]
  · unfold contains_all
    rw [preprocess_strings_upper]
  · unfold contains_none
    rw [preprocess_strings_upper]
  · simp [equals, pyLower_pyUpper]
  · simp [starts_with, pyLower_pyUpper]
  · simp [ends_with, pyLower_pyUpper]

/-- C7: `contains_all` evaluates every keyword and, on failure, its reason
enumerates exactly the keywords missing from the text; failure happens exactly
when some preprocessed keyword is missing; moreover
`ContainsAll(["a","b"], "a b")` passes and `ContainsAll(["a","c"], "a b")`
fails citing `"c"`. -/
theorem contains_all_enumerates_missing :
    (∀ ks t, (contains_all (.list ks) t false).result = false →
      (contains_all (.list ks) t false).reason =
        "keywords not found in output: ".toList ++
          List.intercalate ", ".toList
            ((preprocess_strings (.list ks) t false).1.filter
              (fun k => !pySubstr k (preprocess_strings (.list ks) t false).2))) ∧
    (∀ ks t, (contains_all (.list ks) t false).result = false ↔
      ∃ k ∈ (preprocess_strings (.list ks) t false).1,
        pySubstr k (preprocess_strings (.list ks) t false).2 = false) ∧
    contains_all (.list ["a".toList, "b".toList]) "a b".toList false =
      ⟨true, "2/2 keywords found in output".toList⟩ ∧
    contains_all (.list ["a".toList, "c".toList]) "a b".toList false =
      ⟨false, "keywords not found in output: c".toList⟩ := by
  refine ⟨?_, ?_, by decide, by decide⟩
  · intro ks t h
    simp only [contains_all] at *
    by_cases hm : 0 < ((preprocess_strings (.list ks) t false).1.filter
        (fun k => !pySubstr k (preprocess_strings (.list ks) t false).2)).length
    · rw [if_pos hm]
    · rw [if_neg hm] at h
      exact absurd h (by simp)
  · intro ks t
    simp only [contains_all]
    by_cases hm : 0 < ((preprocess_strings (.list ks) t false).1.filter
        (fun k => !pySubstr k (preprocess_strings (.list ks) t false).2)).length
    · rw [if_pos hm]
      obtain ⟨x, hx⟩ := List.exists_mem_of_length_pos hm
      have hx' := List.mem_filter.mp hx
      exact iff_of_true rfl ⟨x, hx'.1, by simpa using hx'.2⟩
    · rw [if_neg hm]
      refine iff_of_false (by simp) ?_
      rintro ⟨k, hk, hf⟩
      exact hm (List.length_pos.mpr (List.ne_nil_of_mem
        (List.mem_filter.mpr ⟨hk, by simp [hf]⟩)))

/-- Closed witness for `contains_all_enumerates_missing`: instantiating the
failure-reason clause at `ContainsAll(["a","c"], "a b")`. -/
theorem contains_all_enumerates_missing_witness :
    (contains_all (.list ["a".toList, "c".toList]) "a b".toList false).reason =
      "keywords not found in output: ".toList ++
        List.intercalate ", ".toList
          ((preprocess_strings (.list ["a".toList, "c".toList]) "a b".toList false).1.filter
            (fun k => !pySubstr k
              (preprocess_strings (.list ["a".toList, "c".toList]) "a b".toList false).2)) :=
  contains_all_enumerates_missing.1 ["a".toList, "c".toList] "a b".toList (by decide)

/-- C10: on the empty keyword list, `contains_all` passes vacuously while
`contains_any` fails, and both report a non-empty reason. -/
theorem empty_keyword_list_quantifiers (t : PyStr) :
    (contains_all (.list []) t false).result = true ∧
    (contains_any (.list []) t false).result = false ∧
    (contains_all (.list []) t false).reason ≠ [] ∧
    (contains_any (.list []) t false).reason ≠ [] := by
  refine ⟨?_, ?_, ?_, ?_⟩ <;>
    simp [contains_all, contains_any, preprocess_strings, keywordsToList, natStr]

/-- C8: when the link pattern finds no URL-like token in the text,
`contains_link` returns a failing verdict while `no_invalid_links` returns a
passing verdict, for any HTTP HEAD capability. -/
theorem no_link_verdicts (head : PyStr → Option Nat) (t : PyStr)
    (h : linkFound t = false) :
    contains_link t = ⟨false, "No link found in output".toList⟩ ∧
    no_invalid_links head t = ⟨true, "no invalid link found in output".toList⟩ := by
  have hpos : linkSearchPos t = none := by
    unfold linkFound at h
    exact Option.not_isSome_iff_eq_none.mp (by simp [h])
  constructor
  · simp [contains_link, h]
  · simp [no_invalid_links, firstLink, hpos]

/-- Closed witness for `no_link_verdicts` at the linkless text
`"hello world"`. -/
theorem no_link_verdicts_witness :
    contains_link "hello world".toList =
      ⟨false, "No link found in output".toList⟩ ∧
    no_invalid_links (fun _ => none) "hello world".toList =
      ⟨true, "no invalid link found in output".toList⟩ :=
  no_link_verdicts (fun _ => none) "hello world".toList (by decide)

/-- C5: for any parsed inputs, when no schema is supplied `json_eval` returns
the verdict `{result: False, reason: "Schema not provided"}` as an ordinary
(non-raised) result, leaves the credential state untouched, and does so for
every validation plan — no per-path validation runs. -/
theorem json_eval_schema_not_provided (caps : Caps) (env : Option PyStr)
    (actual_json expected_json : Json) (validations : List Validation)
    (st : KeyState) :
    json_eval caps env actual_json expected_json none validations st =
      (Except.ok ⟨false, "Schema not provided".toList⟩, st) := rfl

/-- C9: for any parsed inputs, a supplied but empty schema object is
indistinguishable from an absent schema: `json_eval` returns the verdict
`{result: False, reason: "Schema not provided"}`, because presence is tested
by truthiness and the empty dict is falsy. -/
theorem json_eval_empty_schema_not_provided (caps : Caps) (env : Option PyStr)
    (actual_json expected_json : Json) (validations : List Validation)
    (st : KeyState) :
    json_eval caps env actual_json expected_json (some (.obj [])) validations st =
      (Except.ok ⟨false, "Schema not provided".toList⟩, st) := rfl

/-- C4: a Cosine Similarity validation entry whose injected similarity
capability scores the text representations of the two extracted values as `s`
passes if and only if `s ≥ pass_threshold`, with the threshold defaulting to
0.8 when absent from the validation spec; the boundary `s = pass_threshold`
passes. -/
theorem cosine_similarity_threshold (caps : Caps) (env : Option PyStr)
    (actual_json expected_json : Json) (v : Validation) (st : KeyState) (s : ℚ)
    (hvf : v.validating_function = "Cosine Similarity".toList)
    (hs : caps.cosine_compare
        (pyStr (caps.extract_json_path actual_json v.json_path))
        (pyStr (caps.extract_json_path expected_json v.json_path)) = s) :
    apply_validation caps env actual_json expected_json v st =
      (Except.ok (decide (v.pass_threshold.getD (0.8 : ℚ) ≤ s)), st) := by
  unfold apply_validation validate_cosine_similarity
  rw [hvf, if_neg (by decide), if_pos rfl, hs]
  by_cases hlt : s < v.pass_threshold.getD (0.8 : ℚ)
  · rw [if_pos hlt, decide_eq_false (not_le.mpr hlt)]
  · rw [if_neg hlt, decide_eq_true (not_lt.mp hlt)]

/-- Closed witness for `cosine_similarity_threshold`: with the constant score
0.8 and the default threshold 0.8 the entry passes (boundary inclusive). -/
theorem cosine_similarity_threshold_witness :
    apply_validation demoCaps none demoDoc demoDoc
      { validating_function := "Cosine Similarity".toList,
        json_path := "$.a".toList } none =
      (Except.ok true, none) := by
  rw [cosine_similarity_threshold demoCaps none demoDoc demoDoc
    { validating_function := "Cosine Similarity".toList,
      json_path := "$.a".toList } none (0.8 : ℚ) rfl rfl]
  simp

/-- C1 counterexample: with an unknown strategy name ("Levenshtein"),
`json_eval` does not raise: it returns the ordinary verdict
`{result: False, reason: "Validation failed"}` to the caller. -/
theorem unknown_strategy_no_raise_counterexample :
    json_eval demoCaps none demoDoc demoDoc (some demoSchema)
      [{ validating_function := "Levenshtein".toList, json_path := "$.a".toList }]
      none =
      (Except.ok ⟨false, "Validation failed".toList⟩, none) ∧
    ∀ err : EvalError,
      (json_eval demoCaps none demoDoc demoDoc (some demoSchema)
        [{ validating_function := "Levenshtein".toList, json_path := "$.a".toList }]
        none).1 ≠ Except.error err := by
  refine ⟨rfl, ?_⟩
  intro err h
  exact Except.noConfusion h

/-- C1 amended: an unknown strategy name is not raised as an error; the entry
evaluates to `False` (after logging) and `json_eval` returns the verdict
`{result: False, reason: "Validation failed"}`. -/
theorem unknown_strategy_returns_failed_verdict (caps : Caps) (env : Option PyStr)
    (actual_json expected_json sch : Json) (v : Validation) (st : KeyState)
    (h1 : pyTruthy sch = true)
    (h2 : caps.validate_json actual_json sch = true)
    (h3 : caps.validate_json expected_json sch = true)
    (h4 : v.validating_function ≠ "Equals".toList)
    (h5 : v.validating_function ≠ "Cosine Similarity".toList)
    (h6 : v.validating_function ≠ "LLM Similarity".toList) :
    json_eval caps env actual_json expected_json (some sch) [v] st =
      (Except.ok ⟨false, "Validation failed".toList⟩, st) := by
  unfold json_eval run_validations apply_validation
  rw [if_neg h4, if_neg h5, if_neg h6]
  simp [h1, h2, h3]

/-- Closed witness for `unknown_strategy_returns_failed_verdict` at the
unknown strategy name "Jaccard". -/
theorem unknown_strategy_returns_failed_verdict_witness :
    json_eval demoCaps none demoDoc demoDoc (some demoSchema)
      [{ validating_function := "Jaccard".toList, json_path := "$.a".toList }]
      none =
      (Except.ok ⟨false, "Validation failed".toList⟩, none) :=
  unknown_strategy_returns_failed_verdict demoCaps none demoDoc demoDoc
    demoSchema
    { validating_function := "Jaccard".toList, json_path := "$.a".toList }
    none rfl rfl rfl (by decide) (by decide) (by decide)

/-- A non-LLM validation entry leaves the credential state untouched. -/
theorem apply_validation_state (caps : Caps) (env : Option PyStr)
    (actual_json expected_json : Json) (v : Validation) (st : KeyState)
    (h : v.validating_function ≠ "LLM Similarity".toList) :
    (apply_validation caps env actual_json expected_json v st).2 = st := by
  unfold apply_validation
  by_cases h1 : v.validating_function = "Equals".toList
  · rw [if_pos h1]
  · rw [if_neg h1]
    by_cases h2 : v.validating_function = "Cosine Similarity".toList
    · rw [if_pos h2]
    · rw [if_neg h2, if_neg h]

/-- A validation plan without LLM Similarity entries leaves the credential
state untouched. -/
theorem run_validations_state (caps : Caps) (env : Option PyStr)
    (actual_json expected_json : Json) :
    ∀ (vs : List Validation) (st : KeyState),
      (∀ v ∈ vs, v.validating_function ≠ "LLM Similarity".toList) →
      (run_validations caps env actual_json expected_json vs st).2 = st := by
  intro vs
  induction vs with
  | nil => intro st _; rfl
  | cons v vs ih =>
    intro st hh
    unfold run_validations
    have hv := apply_validation_state caps env actual_json expected_json v st
      (hh v (List.mem_cons_self v vs))
    rcases happ : apply_validation caps env actual_json expected_json v st with ⟨r, st'⟩
    rw [happ] at hv
    simp only at hv
    subst hv
    match r with
    | .error e => rfl
    | .ok false => rfl
    | .ok true =>
      exact ih _ (fun w hw => hh w (List.mem_cons_of_mem v hw))

/-- C2 counterexample: a call to `json_eval` containing an LLM Similarity
entry changes the shared credential store: starting from no stored key, the
stored key after the call is the key supplied in the validation spec. -/
theorem json_eval_mutates_credential_counterexample :
    (json_eval emptyJudgeCaps none demoDoc demoDoc (some demoSchema)
      [{ validating_function := "LLM Similarity".toList, json_path := "$.a".toList,
         open_ai_api_key := some "sk-test".toList }] none).2 =
      some "sk-test".toList ∧
    some "sk-test".toList ≠ (none : KeyState) := by
  exact ⟨rfl, by simp⟩

/-- C2 amended: `json_eval` never mutates its input documents (they are
immutable values of this model), and it leaves the shared credential state
unchanged whenever the validation plan contains no LLM Similarity entry; an
executed LLM Similarity entry, however, writes the resolved API key into the
shared store via `OpenAiApiKey.set_key`. -/
theorem json_eval_preserves_credential_without_llm (caps : Caps)
    (env : Option PyStr) (actual_json expected_json : Json)
    (schema : Option Json) (validations : List Validation) (st : KeyState)
    (h : ∀ v ∈ validations, v.validating_function ≠ "LLM Similarity".toList) :
    (json_eval caps env actual_json expected_json schema validations st).2 = st := by
  unfold json_eval
  rcases schema with _ | s
  · rfl
  · simp only
    by_cases ht : pyTruthy s
    · rw [ht]
      simp only [Bool.not_true, Bool.false_eq_true, if_false]
      by_cases hv : caps.validate_json actual_json s && caps.validate_json expected_json s
      · rw [hv]
        simp only [Bool.not_true, Bool.false_eq_true, if_false]
        have hr := run_validations_state caps env actual_json expected_json validations st h
        rcases hrun : run_validations caps env actual_json expected_json validations st with ⟨r, st'⟩
        rw [hrun] at hr
        simp only at hr
        subst hr
        match r with
        | .error e => rfl
        | .ok false => rfl
        | .ok true => rfl
      · rw [Bool.not_eq_true] at hv
        rw [hv]
        rfl
    · rw [Bool.not_eq_true] at ht
      rw [ht]
      rfl

/-- Closed witness for `json_eval_preserves_credential_without_llm`: an
Equals-only plan leaves the credential store unchanged. -/
theorem json_eval_preserves_credential_without_llm_witness :
    (json_eval demoCaps none demoDoc demoDoc (some demoSchema)
      [{ validating_function := "Equals".toList, json_path := "$.a".toList }]
      (some "old-key".toList)).2 = some "old-key".toList :=
  json_eval_preserves_credential_without_llm demoCaps none demoDoc demoDoc
    (some demoSchema)
    [{ validating_function := "Equals".toList, json_path := "$.a".toList }]
    (some "old-key".toList) (by decide)

/-- C3 counterexample: with a credential available, a malformed judgment
whose `result` is "Maybe" (outside Pass/Fail) and which carries no `score`
field makes the LLM Similarity entry pass: it silently passes instead of
failing. -/
theorem malformed_judgment_passes_counterexample :
    validate_llm_similarity malformedJudgeCaps none (.str "x".toList)
      (.str "y".toList) llmTestValidation none =
      (Except.ok true, some "sk-test".toList) := by
  have hpe : pyEq (.str "Maybe".toList) (.str "Fail".toList) = false := by
    simp [pyEq, pyNum?]
  have h1 : validate_llm_similarity malformedJudgeCaps none (.str "x".toList)
      (.str "y".toList) llmTestValidation none =
      if pyEq (.str "Maybe".toList) (.str "Fail".toList) then
        (Except.ok false, some "sk-test".toList)
      else (Except.ok true, some "sk-test".toList) := rfl
  rw [h1, hpe]
  rfl

/-- C3 amended: with a credential available, a judgment missing the `result`
or `explanation` field is treated as a failed entry, and `result == "Fail"`
fails; but any judgment carrying both fields with `result` different from
"Fail" makes the entry pass, even when `result` is outside Pass/Fail or the
`score` field is missing. -/
theorem llm_judgment_field_handling (caps : Caps) (env : Option PyStr)
    (actual_value expected_value : Json) (v : Validation) (st : KeyState)
    (r : Json)
    (hkey : notKey (resolveKey v st env) = false) :
    ((lookupJ (caps.json_completion (v.model.getD "gpt-3.5-turbo".toList)
          systemMessage (userMessage actual_value expected_value) 0)
        "result".toList = none ∨
      lookupJ (caps.json_completion (v.model.getD "gpt-3.5-turbo".toList)
          systemMessage (userMessage actual_value expected_value) 0)
        "explanation".toList = none →
      (validate_llm_similarity caps env actual_value expected_value v st).1 =
        Except.ok false) ∧
    (lookupJ (caps.json_completion (v.model.getD "gpt-3.5-turbo".toList)
          systemMessage (userMessage actual_value expected_value) 0)
        "result".toList = some (.str "Fail".toList) →
      (validate_llm_similarity caps env actual_value expected_value v st).1 =
        Except.ok false) ∧
    (lookupJ (caps.json_completion (v.model.getD "gpt-3.5-turbo".toList)
          systemMessage (userMessage actual_value expected_value) 0)
        "result".toList = some r →
      pyEq r (.str "Fail".toList) = false →
      lookupJ (caps.json_completion (v.model.getD "gpt-3.5-turbo".toList)
          systemMessage (userMessage actual_value expected_value) 0)
        "explanation".toList ≠ none →
      (validate_llm_similarity caps env actual_value expected_value v st).1 =
        Except.ok true)) := by
  unfold validate_llm_similarity
  rw [if_neg (by rw [hkey]; exact Bool.false_ne_true)]
  dsimp only
  refine ⟨?_, ?_, ?_⟩
  · rintro (hres | hexp)
    · rw [hres]
    · rcases hres : lookupJ (caps.json_completion (v.model.getD "gpt-3.5-turbo".toList)
          systemMessage (userMessage actual_value expected_value) 0)
          "result".toList with _ | r0
      · rfl
      · rw [hexp]
  · intro hres
    rw [hres]
    rcases hexp : lookupJ (caps.json_completion (v.model.getD "gpt-3.5-turbo".toList)
        systemMessage (userMessage actual_value expected_value) 0)
        "explanation".toList with _ | x
    · rfl
    · have hff : pyEq (.str "Fail".toList) (.str "Fail".toList) = true := by
        simp [pyEq, pyNum?]
      dsimp only
      rw [hff]
      rfl
  · intro hres hpe hexp
    rw [hres]
    rcases hexp2 : lookupJ (caps.json_completion (v.model.getD "gpt-3.5-turbo".toList)
        systemMessage (userMessage actual_value expected_value) 0)
        "explanation".toList with _ | x
    · exact absurd hexp2 hexp
    · dsimp only
      rw [hpe]
      rfl

/-- Closed witness for `llm_judgment_field_handling`: instantiating the
pass clause at the malformed judgment returned by `malformedJudgeCaps`. -/
theorem llm_judgment_field_handling_witness :
    (validate_llm_similarity malformedJudgeCaps none (.str "a".toList)
      (.str "b".toList) llmWitnessValidation none).1 = Except.ok true :=
  (llm_judgment_field_handling malformedJudgeCaps none (.str "a".toList)
      (.str "b".toList) llmWitnessValidation none
      (.str "Maybe".toList) rfl).2.2 rfl (by simp [pyEq, pyNum?])
    (by intro h; exact Option.noConfusion h)
